import Mathlib

/-!
Verification of the gray-release routing engine (`enableGrayVersion/index.js`).

The JavaScript module is shallowly embedded: JS strings are Lean `String`s,
JS string primitives are modelled character-wise on `String.data`, loose JS
objects with optional fields become structures of `Option`-typed fields
(an absent field is `none`; the destructuring defaults of the source are
applied with `Option.getD`), and the stateful entry points are modelled as
pure functions from an explicit environment to a result plus an ordered
trace of storage-write and navigation events.
-/

/-- Models JS `s.startsWith(pre)`: character-wise prefix test. -/
def jsStartsWith (s p : String) : Bool :=
  p.data.isPrefixOf s.data

/-- Models JS `s.slice(n)`: drop the first `n` characters. -/
def jsDrop (s : String) (n : Nat) : String :=
  ⟨s.data.drop n⟩

/-- Splitting a character list at every occurrence of `c`, keeping empty
segments; the empty list yields one empty segment, as JS `split` does. -/
def jsSplitList (c : Char) : List Char → List (List Char)
  | [] => [[]]
  | x :: xs =>
    if x = c then [] :: jsSplitList c xs
    else
      match jsSplitList c xs with
      | [] => [[x]]
      | h :: t => (x :: h) :: t

/-- Models JS `s.split(c)` for a one-character separator. -/
def jsSplit (s : String) (c : Char) : List String :=
  (jsSplitList c s.data).map fun l => ⟨l⟩

/-- Models JS `parts.join(sep)`. -/
def jsJoin (sep : String) (parts : List String) : String :=
  String.intercalate sep parts

/-- Models the `SUBPACKAGES_ROOT` constant of the source: the root directory
name of the canary (gray) subpackage. -/
def SUBPACKAGES_ROOT : String := "grayVersion"

/-- Models the relevant fields of the source's `UserInfo` object; the fields
not consumed by the rule evaluator are omitted.  `none` models an absent
field or a nullish `userInfo`. -/
structure UserInfo where
  areaCode : Option String := none
  mobilePhone : Option String := none
deriving DecidableEq

/-- Models both the source's `GrayRule` object and the record persisted under
the `GRAY_VERSION` storage key (the rule fields together with the computed
`isGrayVersion` decision).  `phonePre` models the source's phone-number
prefix field.  An absent field is `none`; a missing storage record (the
empty value returned by `wx.getStorageSync`) behaves exactly like the
record with every field `none`. -/
structure GrayRule where
  isOpen : Option Bool := none
  areaCode : Option (List String) := none
  phonePre : Option String := none
  whiteList : Option (List String) := none
  all : Option Bool := none
  isTest : Option Bool := none
  isGrayVersion : Option Bool := none
deriving DecidableEq

/-- Embeds `checkIsGrayVersionTargetUser` (lines 83-108 of the source).
The destructuring defaults `isOpen = false`, `areaCode = []`,
`phonePre = ""`, `whiteList = []`, `all = false` are applied with
`Option.getD`; `userInfo?.areaCode || ''` becomes an `Option.bind`
followed by `Option.getD ""`. -/
def checkIsGrayVersionTargetUser (rule : GrayRule) (userInfo : Option UserInfo) : Bool :=
  let isOpen := rule.isOpen.getD false
  let areaCode := rule.areaCode.getD []
  let phonePre := rule.phonePre.getD ""
  let whiteList := rule.whiteList.getD []
  let all := rule.all.getD false
  if !isOpen then false
  else if all then true
  else if (match areaCode with | [] => false | c :: _ => c == "all") then true
  else
    let userAreaCode := (Option.bind userInfo UserInfo.areaCode).getD ""
    if areaCode.any fun code => jsStartsWith userAreaCode code then true
    else
      let userMobilePhone := (Option.bind userInfo UserInfo.mobilePhone).getD ""
      if decide (0 < phonePre.length) && jsStartsWith userMobilePhone phonePre then true
      else if whiteList.contains userMobilePhone then true
      else false

/-- Embeds `isGrayVersionSync` (lines 114-117): read the persisted record and
return `isGrayVersion || false`; the argument is the current content of the
`GRAY_VERSION` storage key. -/
def isGrayVersionSync (storage : GrayRule) : Bool :=
  storage.isGrayVersion.getD false

/-- C3: for every rule whose `isOpen` field is `false` or absent, and every
user-attribute object, `checkIsGrayVersionTargetUser` returns `false`
regardless of the values of `all`, `areaCode`, the phone-number prefix and
`whiteList`. -/
theorem checkIsGrayVersionTargetUser_closed_rule_false
    (rule : GrayRule) (u : Option UserInfo)
    (h : rule.isOpen = none ∨ rule.isOpen = some false) :
    checkIsGrayVersionTargetUser rule u = false := by
  rcases h with h | h <;> simp [checkIsGrayVersionTargetUser, h]

/-- Witness for C3 at a concrete closed rule whose other fields would all
match: the verdict is still `false`. -/
theorem checkIsGrayVersionTargetUser_closed_rule_false_witness :
    (({ isOpen := some false, all := some true, areaCode := some ["all"] } : GrayRule).isOpen
        = none ∨
      ({ isOpen := some false, all := some true, areaCode := some ["all"] } : GrayRule).isOpen
        = some false) ∧
    checkIsGrayVersionTargetUser
      { isOpen := some false, all := some true, areaCode := some ["all"] } none = false :=
  ⟨Or.inr rfl,
    checkIsGrayVersionTargetUser_closed_rule_false
      { isOpen := some false, all := some true, areaCode := some ["all"] } none (Or.inr rfl)⟩

/-- C8, counterexample: for the rule whose `areaCode` is `["all", "110000"]`
and with no other fields given, the claim asserts a `true` verdict for every
user; the code returns `false`, because the absent `isOpen` field defaults
to `false` and the closed-rule check precedes the sentinel check. -/
theorem checkTargetUser_sentinel_without_isOpen_cex :
    checkIsGrayVersionTargetUser { areaCode := some ["all", "110000"] } none = false := by
  decide

/-- C8, amended: for the rule with `isOpen = true` and `areaCode` beginning
with the sentinel `"all"` (no other fields given), the verdict is `true` for
every user-attribute object, including an absent one; the remaining elements
of `areaCode` are never inspected. -/
theorem checkTargetUser_sentinel_first_element (rest : List String) (u : Option UserInfo) :
    checkIsGrayVersionTargetUser
      { isOpen := some true, areaCode := some ("all" :: rest) } u = true := by
  simp [checkIsGrayVersionTargetUser]

/-- Models the outcome of the `fetch('/api/grayVersionRule')` call in
`getGrayVersionRule`: either a parsed response body carrying a status `code`
and a rule payload, or a transport-level failure (timeout, connection error,
malformed payload — anything the source's `try` block catches). -/
inductive FetchOutcome where
  | ok (code : Int) (data : GrayRule)
  | fail
deriving DecidableEq

/-- Result of `getGrayVersionRule`: the rule the promise resolves with, and
the storage write it performed, if any. -/
structure RuleFetchResult where
  rule : GrayRule
  storageWrite : Option GrayRule
deriving DecidableEq

/-- Embeds `getGrayVersionRule` (lines 214-244): if the cached record carries
`isTest`, resolve with it and skip the fetch; otherwise, on a response whose
body has `code === 200`, persist and resolve with the fetched rule; on every
other status and on every caught failure, resolve with `{isOpen: false}` and
write nothing.  Totality of this function models the source's promise never
rejecting. -/
def getGrayVersionRule (storage : GrayRule) (outcome : FetchOutcome) : RuleFetchResult :=
  if storage.isTest.getD false then { rule := storage, storageWrite := none }
  else
    match outcome with
    | .ok code data =>
      if code = 200 then { rule := data, storageWrite := some data }
      else { rule := { isOpen := some false }, storageWrite := none }
    | .fail => { rule := { isOpen := some false }, storageWrite := none }

/-- C5: `getGrayVersionRule` never rejects (the embedding is a total function
to a rule); when no test override is cached, a transport failure or a
non-success status resolves to the rule `{isOpen: false}`, and a success
status resolves to the fetched rule. -/
theorem getGrayVersionRule_failure_fallback
    (storage : GrayRule) (code : Int) (data : GrayRule)
    (h : storage.isTest.getD false = false) :
    (getGrayVersionRule storage FetchOutcome.fail).rule = { isOpen := some false } ∧
    (getGrayVersionRule storage (FetchOutcome.ok code data)).rule =
      (if code = 200 then data else { isOpen := some false }) := by
  constructor
  · simp [getGrayVersionRule, h]
  · by_cases hc : code = 200 <;> simp [getGrayVersionRule, h, hc]

/-- Witness for C5: an empty cached record, a 500 status and a transport
failure both fall back to the closed rule. -/
theorem getGrayVersionRule_failure_fallback_witness :
    (({} : GrayRule).isTest.getD false = false) ∧
    ((getGrayVersionRule {} FetchOutcome.fail).rule = { isOpen := some false } ∧
      (getGrayVersionRule {} (FetchOutcome.ok 500 { all := some true })).rule =
        (if (500 : Int) = 200 then { all := some true } else { isOpen := some false })) :=
  ⟨rfl, getGrayVersionRule_failure_fallback {} 500 { all := some true } rfl⟩

/-- C10: `getGrayVersionRule` either performs no storage write at all, or the
fetch succeeded with status 200 and exactly the fetched rule was written and
returned; in particular every failure path leaves the persisted
`GRAY_VERSION` record unchanged even though the `{isOpen: false}` fallback
is returned to the caller. -/
theorem getGrayVersionRule_storageWrite (storage : GrayRule) (outcome : FetchOutcome) :
    (getGrayVersionRule storage outcome).storageWrite = none ∨
    ∃ w, outcome = FetchOutcome.ok 200 w ∧
      (getGrayVersionRule storage outcome).storageWrite = some w ∧
      (getGrayVersionRule storage outcome).rule = w := by
  by_cases ht : storage.isTest.getD false
  · left
    simp [getGrayVersionRule, ht]
  · cases outcome with
    | fail =>
      left
      simp [getGrayVersionRule, ht]
    | ok code data =>
      by_cases hc : code = 200
      · right
        subst hc
        exact ⟨data, rfl, by simp [getGrayVersionRule, ht], by simp [getGrayVersionRule, ht]⟩
      · left
        simp [getGrayVersionRule, ht, hc]

/-- Removing the first occurrence of the character `c` from a list. -/
def removeFirstList (c : Char) : List Char → List Char
  | [] => []
  | x :: xs => if x = c then xs else x :: removeFirstList c xs

/-- Models JS `s.replace(c, '')` for a one-character string pattern:
`String.prototype.replace` with a string pattern replaces only the first
occurrence. -/
def jsRemoveFirst (s : String) (c : Char) : String :=
  ⟨removeFirstList c s.data⟩

/-- The body of the segment loop of `fixRelativeUrl` (lines 292-296): a dot
leaves the stack alone, a dot-dot pops it, anything else is pushed. -/
def segStep (st : List String) (part : String) : List String :=
  if part == "." then st
  else if part == ".." then st.dropLast
  else st ++ [part]

/-- Embeds `fixRelativeUrl` (lines 283-299): an absolute target has its first
slash removed; otherwise the base path is treated as a slash-delimited stack
whose last segment is popped, and each segment of the target is applied to
the stack in a loop. -/
def fixRelativeUrl (base relative : String) : String :=
  if jsStartsWith relative "/" then
    jsRemoveFirst relative '/'
  else
    let stack := (jsSplit base '/').dropLast
    let parts := jsSplit relative '/'
    jsJoin "/" (parts.foldl segStep stack)

/-- Stated from the spec's words for claim C6: apply the target's segments to
the stack one by one; a dot is a no-op, a dot-dot pops one segment, anything
else pushes. -/
def applySegments : List String → List String → List String
  | stack, [] => stack
  | stack, p :: rest =>
    if p = "." then applySegments stack rest
    else if p = ".." then applySegments stack.dropLast rest
    else applySegments (stack ++ [p]) rest

/-- The source's segment loop, written as a fold, agrees with the spec's
recursive stack transformation. -/
theorem foldl_eq_applySegments (parts stack : List String) :
    parts.foldl segStep stack = applySegments stack parts := by
  induction parts generalizing stack with
  | nil => rfl
  | cons p rest ih =>
    rw [List.foldl_cons, ih]
    by_cases h1 : p = "."
    · simp [segStep, applySegments, h1]
    · by_cases h2 : p = ".."
      · simp [segStep, applySegments, h1, h2]
      · simp [segStep, applySegments, h1, h2]

/-- On a string starting with a slash, removing the first occurrence of the
slash is exactly dropping the leading character. -/
theorem jsRemoveFirst_of_head (s : String) (h : jsStartsWith s "/" = true) :
    jsRemoveFirst s '/' = jsDrop s 1 := by
  rcases s with ⟨l⟩
  cases l with
  | nil => simp [jsStartsWith, List.isPrefixOf] at h
  | cons x xs =>
    have hx : x = '/' := by
      have := h
      simp [jsStartsWith, List.isPrefixOf] at this
      exact this.symm
    subst hx
    simp [jsRemoveFirst, removeFirstList, jsDrop]

/-- C6: `fixRelativeUrl` implements standard relative-path resolution — an
absolute target (leading slash) is returned with the leading separator
removed, any other target is resolved by the spec's stack transformation of
the base path with the last segment dropped; on the claim's two examples it
yields `pages/b/index` and `pages/c/index`, and popping past the stack root
does not crash but yields a malformed (here: empty) path. -/
theorem fixRelativeUrl_spec (base target : String) :
    fixRelativeUrl base target =
      (if jsStartsWith target "/" then jsDrop target 1
       else jsJoin "/" (applySegments ((jsSplit base '/').dropLast) (jsSplit target '/'))) ∧
    fixRelativeUrl "pages/a/index" "../b/index" = "pages/b/index" ∧
    fixRelativeUrl "pages/a/index" "/pages/c/index" = "pages/c/index" ∧
    fixRelativeUrl "pages/a/index" "../../.." = "" := by
  refine ⟨?_, by decide, by decide, by decide⟩
  by_cases h : jsStartsWith target "/"
  · simp [fixRelativeUrl, h, jsRemoveFirst_of_head target h]
  · simp [fixRelativeUrl, h, foldl_eq_applySegments]

/-- The canary-bundle path marker: the subpackage root followed by its
separator, the string bound on line 322 of `routeApiProxy`. -/
def grayRoot : String := SUBPACKAGES_ROOT ++ "/"

/-- The marker-stripping operation of the navigation interceptor
(lines 321-325): remove a leading canary-bundle marker, a no-op otherwise.
This is the operation the spec's §4.4 contract calls stripping the canary
bundle marker from a path. -/
def stripGrayRoot (url : String) : String :=
  if jsStartsWith url grayRoot then jsDrop url grayRoot.length else url

/-- The marker-adding operation: prepend the canary-bundle marker, as done
on line 334 and line 166 of the source.  The leading slash those lines also
add is the absolute-url marker, added on both branches of the rewrite, and
is therefore not part of this operation. -/
def addGrayRoot (url : String) : String :=
  grayRoot ++ url

/-- A character list is a prefix of itself extended by anything. -/
theorem isPrefixOf_append_self (l m : List Char) : l.isPrefixOf (l ++ m) = true := by
  induction l with
  | nil => simp
  | cons x xs ih => simp [List.isPrefixOf, ih]

/-- A string starts with itself extended by anything. -/
theorem jsStartsWith_append (a b : String) : jsStartsWith (a ++ b) a = true := by
  simp only [jsStartsWith, String.data_append]
  exact isPrefixOf_append_self a.data b.data

/-- Dropping the length of the first summand of an append recovers the
second summand. -/
theorem jsDrop_length_append (a b : String) : jsDrop (a ++ b) a.length = b := by
  apply String.ext
  show (a ++ b).data.drop a.length = b.data
  rw [String.data_append]
  exact List.drop_left a.data b.data

/-- C7: for every path not already carrying the canary-bundle marker, adding
the marker and then stripping it returns the original path, and stripping
such a path directly is a no-op. -/
theorem stripGrayRoot_addGrayRoot (p : String) (h : jsStartsWith p grayRoot = false) :
    stripGrayRoot (addGrayRoot p) = p ∧ stripGrayRoot p = p := by
  constructor
  · simp [stripGrayRoot, addGrayRoot, jsStartsWith_append, jsDrop_length_append]
  · simp [stripGrayRoot, h]

/-- Witness for C7 on a concrete production-bundle path. -/
theorem stripGrayRoot_addGrayRoot_witness :
    jsStartsWith "pages/home/index" grayRoot = false ∧
    (stripGrayRoot (addGrayRoot "pages/home/index") = "pages/home/index" ∧
      stripGrayRoot "pages/home/index" = "pages/home/index") :=
  ⟨by decide, stripGrayRoot_addGrayRoot "pages/home/index" (by decide)⟩

/-- Canary eligibility of a normalized path: it starts with one of the
supplied canary page paths, as checked on line 328 and line 147. -/
def canaryEligible (grayPages : List String) (url : String) : Bool :=
  grayPages.any fun p => jsStartsWith url p

/-- Models a call object passed to one of the three intercepted navigation
APIs: the target url, the opt-out marker `notProxy`, and the remaining call
parameters (callbacks and the like), which the interceptor must carry
through unchanged. -/
structure RouteCall where
  url : String
  notProxy : Bool := false
  extra : List (String × String) := []
deriving DecidableEq

/-- Embeds `newWxRouteApi`, the wrapper built by `routeApiProxy`
(lines 307-342), as the transformation applied to the call object before
the wrapped API receives it.  The page list imported from `grayPages.js`
(externally supplied, not part of the module), the current page's route and
the persisted storage record are explicit parameters. -/
def newWxRouteApi (grayPages : List String) (currentRoute : String) (storage : GrayRule)
    (object : RouteCall) : RouteCall :=
  if object.notProxy then object
  else
    let url := fixRelativeUrl currentRoute object.url
    let url := if jsStartsWith url grayRoot then jsDrop url grayRoot.length else url
    let isGrayPage := grayPages.any fun p => jsStartsWith url p
    let isGrayVersion := isGrayVersionSync storage
    let url :=
      if isGrayPage && isGrayVersion then "/" ++ SUBPACKAGES_ROOT ++ "/" ++ url
      else "/" ++ url
    { object with url := url }

/-- C4: an intercepted navigation call carrying the opt-out marker is
delegated unchanged; otherwise the target is resolved against the current
page's route, any canary-bundle marker is stripped, the delegated url
carries the canary marker exactly when the stripped path is canary-eligible
and the persisted decision is gray, and the remaining call parameters (and
the query string embedded in the url) are preserved. -/
theorem newWxRouteApi_rewrite (grayPages : List String) (currentRoute : String)
    (storage : GrayRule) (object : RouteCall) :
    newWxRouteApi grayPages currentRoute storage object =
      (if object.notProxy then object
       else
         { object with url :=
            (if canaryEligible grayPages (stripGrayRoot (fixRelativeUrl currentRoute object.url))
                && isGrayVersionSync storage
             then "/" ++ addGrayRoot (stripGrayRoot (fixRelativeUrl currentRoute object.url))
             else "/" ++ stripGrayRoot (fixRelativeUrl currentRoute object.url)) }) := by
  by_cases h : object.notProxy
  · simp [newWxRouteApi, h]
  · simp only [newWxRouteApi, canaryEligible, stripGrayRoot, addGrayRoot, h]
    simp [grayRoot, String.append_assoc]

/-- An observable side effect of `redirectToGrayPage`, in program order:
either the `wx.setStorageSync('GRAY_VERSION', ...)` write of line 139, or a
`wx.redirectTo` navigation (lines 165-168 and 173-176) with its url and its
`notProxy` opt-out marker. -/
inductive Event where
  | write (rec : GrayRule)
  | nav (url : String) (notProxy : Bool)
deriving DecidableEq

/-- The environment a call to `redirectToGrayPage` executes in: the module
toggle `isGrayVersionOpen`, the record currently persisted under
`GRAY_VERSION`, the supplied `grayPages` list, the supplied user attributes,
the current page's route (`getCurrentPages()` top entry, empty when absent)
and the enter-options query parameters. -/
structure RedirectEnv where
  isGrayVersionOpen : Bool
  storage : GrayRule
  grayPages : List String
  userInfo : Option UserInfo
  currentRoute : String
  query : List (String × String)
deriving DecidableEq

/-- The boolean returned by `redirectToGrayPage` together with the ordered
trace of its storage-write and navigation effects. -/
structure RedirectResult where
  ret : Bool
  events : List Event
deriving DecidableEq

/-- The query-parameter suffix built on lines 151-154: a question mark and
ampersand-joined `key=value` pairs when any parameter exists, empty
otherwise. -/
def querySuffix (query : List (String × String)) : String :=
  if 0 < query.length then
    "?" ++ String.intercalate "&" (query.map fun v => v.1 ++ "=" ++ v.2)
  else ""

/-- The current route with the canary-bundle root stripped, as on
lines 156-159: when the route starts with `SUBPACKAGES_ROOT`, drop the root
and one separator character. -/
def strippedRoute (route : String) : String :=
  if jsStartsWith route SUBPACKAGES_ROOT then jsDrop route (SUBPACKAGES_ROOT.length + 1)
  else route

/-- Embeds `redirectToGrayPage` (lines 124-182).  The source returns `false`
at once when the feature toggle is off; otherwise it evaluates the persisted
rule against the user, persists the fresh decision, returns `false` when the
raw current route matches no supplied page, and on a verdict mismatch issues
exactly one `notProxy` redirect to the stripped route under the bundle the
fresh verdict selects, with the enter-options query appended. -/
def redirectToGrayPage (env : RedirectEnv) : RedirectResult :=
  if !env.isGrayVersionOpen then { ret := false, events := [] }
  else
    let rule := env.storage
    let isTargetUser := checkIsGrayVersionTargetUser rule env.userInfo
    let isGrayVersion := isGrayVersionSync env.storage
    let isRedirect := isTargetUser != isGrayVersion
    let newRec := { rule with isGrayVersion := some isTargetUser }
    let url := env.currentRoute
    let isGrayPage := env.grayPages.any fun page => jsStartsWith url page
    if !isGrayPage then { ret := false, events := [Event.write newRec] }
    else
      let urlParams := querySuffix env.query
      let url :=
        if jsStartsWith url SUBPACKAGES_ROOT then jsDrop url (SUBPACKAGES_ROOT.length + 1)
        else url
      if isRedirect then
        if isGrayPage && isTargetUser then
          { ret := true,
            events := [Event.write newRec,
              Event.nav ("/" ++ SUBPACKAGES_ROOT ++ "/" ++ url ++ urlParams) true] }
        else if isGrayPage && !isTargetUser then
          { ret := true,
            events := [Event.write newRec, Event.nav ("/" ++ url ++ urlParams) true] }
        else { ret := false, events := [Event.write newRec] }
      else { ret := false, events := [Event.write newRec] }

/-- Recognizes navigation events in a trace. -/
def isNavEvent : Event → Bool
  | Event.nav _ _ => true
  | Event.write _ => false

/-- The navigation calls of a trace, in order. -/
def navEvents (l : List Event) : List Event :=
  l.filter isNavEvent

/-- Every trace of `redirectToGrayPage` is empty, a single storage write, or
a storage write followed by one opt-out navigation. -/
theorem redirectToGrayPage_events_shape (env : RedirectEnv) :
    (redirectToGrayPage env).events = [] ∨
    (∃ r, (redirectToGrayPage env).events = [Event.write r]) ∨
    (∃ r u, (redirectToGrayPage env).events = [Event.write r, Event.nav u true]) := by
  unfold redirectToGrayPage
  by_cases h1 : env.isGrayVersionOpen
  · simp only [h1, Bool.not_true, Bool.false_eq_true, if_false]
    by_cases h2 : env.grayPages.any fun page => jsStartsWith env.currentRoute page
    · simp only [h2, Bool.not_true, Bool.false_eq_true, if_false]
      split
      · split
        · exact Or.inr (Or.inr ⟨_, _, rfl⟩)
        · split
          · exact Or.inr (Or.inr ⟨_, _, rfl⟩)
          · exact Or.inr (Or.inl ⟨_, rfl⟩)
      · exact Or.inr (Or.inl ⟨_, rfl⟩)
    · simp only [h2]
      simp
  · simp [h1]

/-- C9: in every execution of `redirectToGrayPage`, any navigation event in
the trace is preceded by the storage write persisting the fresh decision;
no execution navigates before writing. -/
theorem redirectToGrayPage_write_before_nav (env : RedirectEnv) (i : Nat) (u : String) (b : Bool)
    (h : (redirectToGrayPage env).events.get? i = some (Event.nav u b)) :
    ∃ j, j < i ∧ ∃ r, (redirectToGrayPage env).events.get? j = some (Event.write r) := by
  rcases redirectToGrayPage_events_shape env with hs | ⟨r, hs⟩ | ⟨r, v, hs⟩ <;> rw [hs] at h ⊢
  · simp at h
  · cases i with
    | zero => simp at h
    | succ n => simp at h
  · cases i with
    | zero => simp at h
    | succ n => exact ⟨0, Nat.succ_pos n, r, rfl⟩

/-- Witness for C9: a concrete run that does navigate has its navigation at
index 1 and a storage write strictly before it. -/
theorem redirectToGrayPage_write_before_nav_witness :
    ((redirectToGrayPage
        { isGrayVersionOpen := true, storage := { isOpen := some true, all := some true },
          grayPages := ["pages/a"], userInfo := none,
          currentRoute := "pages/a/index", query := [] }).events.get? 1 =
      some (Event.nav "/grayVersion/pages/a/index" true)) ∧
    (∃ j, j < 1 ∧ ∃ r,
      (redirectToGrayPage
          { isGrayVersionOpen := true, storage := { isOpen := some true, all := some true },
            grayPages := ["pages/a"], userInfo := none,
            currentRoute := "pages/a/index", query := [] }).events.get? j =
        some (Event.write r)) :=
  ⟨by decide,
    redirectToGrayPage_write_before_nav _ 1 "/grayVersion/pages/a/index" true (by decide)⟩

/-- C2 as amended: when the feature toggle is on, `redirectToGrayPage`
returns `true` exactly when the fresh verdict differs from the persisted
decision and the raw current route (before canary-marker stripping) starts
with a supplied canary page path, and its trace then carries exactly one
opt-out (`notProxy`) replace-navigation, to the stripped route under the
canary marker when the fresh verdict is `true` and without it otherwise,
with the enter-options query parameters appended; in every other case no
navigation is issued. -/
theorem redirectToGrayPage_redirect_policy (env : RedirectEnv)
    (h : env.isGrayVersionOpen = true) :
    ((redirectToGrayPage env).ret = true ↔
      (checkIsGrayVersionTargetUser env.storage env.userInfo ≠ isGrayVersionSync env.storage ∧
        canaryEligible env.grayPages env.currentRoute = true)) ∧
    navEvents (redirectToGrayPage env).events =
      (if (redirectToGrayPage env).ret = true then
        [Event.nav
          ((if checkIsGrayVersionTargetUser env.storage env.userInfo then
              "/" ++ addGrayRoot (strippedRoute env.currentRoute)
            else "/" ++ strippedRoute env.currentRoute) ++ querySuffix env.query) true]
       else []) := by
  by_cases hP : env.grayPages.any fun page => jsStartsWith env.currentRoute page
  · by_cases hT : checkIsGrayVersionTargetUser env.storage env.userInfo
      <;> by_cases hG : isGrayVersionSync env.storage
      <;> simp [redirectToGrayPage, navEvents, isNavEvent, canaryEligible, h, hP, hT, hG,
            strippedRoute, addGrayRoot, grayRoot, querySuffix, String.append_assoc]
  · simp [redirectToGrayPage, navEvents, isNavEvent, canaryEligible, h, hP]

/-- Witness for C2 at a concrete mismatching, eligible call: one prefixed
opt-out navigation with the query appended. -/
theorem redirectToGrayPage_redirect_policy_witness :
    (({ isGrayVersionOpen := true, storage := { isOpen := some true, all := some true },
        grayPages := ["pages/w"], userInfo := none,
        currentRoute := "pages/w/index", query := [("a", "1")] } : RedirectEnv).isGrayVersionOpen
      = true) ∧
    (((redirectToGrayPage
          { isGrayVersionOpen := true, storage := { isOpen := some true, all := some true },
            grayPages := ["pages/w"], userInfo := none,
            currentRoute := "pages/w/index", query := [("a", "1")] }).ret = true ↔
        (checkIsGrayVersionTargetUser { isOpen := some true, all := some true } none ≠
            isGrayVersionSync { isOpen := some true, all := some true } ∧
          canaryEligible ["pages/w"] "pages/w/index" = true)) ∧
      navEvents
          (redirectToGrayPage
            { isGrayVersionOpen := true, storage := { isOpen := some true, all := some true },
              grayPages := ["pages/w"], userInfo := none,
              currentRoute := "pages/w/index", query := [("a", "1")] }).events =
        (if (redirectToGrayPage
              { isGrayVersionOpen := true, storage := { isOpen := some true, all := some true },
                grayPages := ["pages/w"], userInfo := none,
                currentRoute := "pages/w/index", query := [("a", "1")] }).ret = true then
          [Event.nav
            ((if checkIsGrayVersionTargetUser { isOpen := some true, all := some true } none then
                "/" ++ addGrayRoot (strippedRoute "pages/w/index")
              else "/" ++ strippedRoute "pages/w/index") ++ querySuffix [("a", "1")]) true]
         else [])) :=
  ⟨rfl,
    redirectToGrayPage_redirect_policy
      { isGrayVersionOpen := true, storage := { isOpen := some true, all := some true },
        grayPages := ["pages/w"], userInfo := none,
        currentRoute := "pages/w/index", query := [("a", "1")] } rfl⟩

/-- C2, counterexample: a call on a page inside the canary bundle whose
stripped path matches a supplied canary page path (so the page is
canary-eligible in the spec's prefix-stripped sense), with the fresh verdict
differing from the persisted decision, toggle on — yet the code returns
`false` and issues no navigation, because it tests eligibility on the raw
route; the claim as stated requires one replace-navigation and `true`. -/
theorem redirectToGrayPage_mismatch_specEligible_cex :
    (checkIsGrayVersionTargetUser { isOpen := some false, isGrayVersion := some true } none ≠
        isGrayVersionSync { isOpen := some false, isGrayVersion := some true } ∧
      canaryEligible ["pages/b"] (stripGrayRoot "grayVersion/pages/b/home") = true) ∧
    (redirectToGrayPage
        { isGrayVersionOpen := true,
          storage := { isOpen := some false, isGrayVersion := some true },
          grayPages := ["pages/b"], userInfo := none,
          currentRoute := "grayVersion/pages/b/home", query := [] }).ret = false ∧
    navEvents
      (redirectToGrayPage
        { isGrayVersionOpen := true,
          storage := { isOpen := some false, isGrayVersion := some true },
          grayPages := ["pages/b"], userInfo := none,
          currentRoute := "grayVersion/pages/b/home", query := [] }).events = [] := by
  refine ⟨⟨by decide, by decide⟩, by decide, by decide⟩

/-- C1: the claim says canary eligibility of the current page is determined
on its normalized, prefix-stripped path, so that a page under the canary
bundle is eligible (and redirected back to the correct bundle) whenever its
stripped path starts with a supplied page path.  The code computes
eligibility on the raw route before stripping (line 147 precedes
lines 157-159), so this concrete gray-bundle page with a matching stripped
path, a stale gray decision and a fresh non-gray verdict gets no redirect:
`redirectToGrayPage` returns `false` after the storage write, issuing no
navigation. -/
theorem redirectToGrayPage_grayBundlePage_not_redirected :
    (stripGrayRoot "grayVersion/pages/a/index" = "pages/a/index" ∧
      canaryEligible ["pages/a/index"] (stripGrayRoot "grayVersion/pages/a/index") = true ∧
      checkIsGrayVersionTargetUser { isOpen := some false, isGrayVersion := some true } none
        = false ∧
      isGrayVersionSync { isOpen := some false, isGrayVersion := some true } = true) ∧
    redirectToGrayPage
        { isGrayVersionOpen := true,
          storage := { isOpen := some false, isGrayVersion := some true },
          grayPages := ["pages/a/index"], userInfo := none,
          currentRoute := "grayVersion/pages/a/index", query := [] } =
      { ret := false,
        events := [Event.write { isOpen := some false, isGrayVersion := some false }] } := by
  refine ⟨⟨by decide, by decide, by decide, by decide⟩, by decide⟩
